import Mathlib

/-!
# Verification of the mojo-go CRM client (RealGeeks/mojo-go)

Shallow embedding of the repository's core logic: the wire-model encoder
(`Contact.MarshalJSON` and helpers), the phone normalizer (`cleanPhone`),
the response classifier for `AddContact`, the 403 handler (`newForbidden`),
the transport status dispatch (`Mojo.post`), and the `AddNote` operation.

Go machine integers (`int`) are modelled as `Int`; Go strings as `String`
(byte-for-byte on the ASCII data relevant here); Go slices as `List`.
`encoding/json` marshalling of the private wire structs (whose fields carry
struct tags, some with `omitempty`) is modelled by an explicit field-list
builder plus a renderer that reproduces Go's compact JSON output, including
Go's string escaping (quote, backslash, control characters, and the
HTML-escaped characters) for the character ranges that can appear here.
`json.Unmarshal` of a remote response body is modelled by passing the parse
outcome (`Except`/`Option`) as an explicit argument, since the classifier
only ever inspects that outcome.
-/

namespace MojoGo

/-- Hex digit character for `n < 16`, as used by Go's `\uXXXX` escapes. -/
def hexDigit (n : Nat) : Char :=
  if n < 10 then Char.ofNat (48 + n) else Char.ofNat (87 + n)

/-- Escape one character the way Go's `encoding/json` encoder does
(with its default HTML escaping of `<`, `>`, `&`). -/
def escapeChar (c : Char) : List Char :=
  if c = '"' then ['\\', '"']
  else if c = '\\' then ['\\', '\\']
  else if c = '\n' then ['\\', 'n']
  else if c = '\r' then ['\\', 'r']
  else if c = '\t' then ['\\', 't']
  else if c = '<' then ['\\', 'u', '0', '0', '3', 'c']
  else if c = '>' then ['\\', 'u', '0', '0', '3', 'e']
  else if c = '&' then ['\\', 'u', '0', '0', '2', '6']
  else if c.toNat < 32 then
    ['\\', 'u', '0', '0', hexDigit (c.toNat / 16), hexDigit (c.toNat % 16)]
  else [c]

/-- Render a Go string as a JSON string literal (quotes included). -/
def renderString (s : String) : String :=
  ⟨'"' :: (s.data.map escapeChar).flatten ++ ['"']⟩

/-- One entry of the wire `mediainfo_set` list: Go struct `media`
with tags `json:"type"` and `json:"value"`. -/
structure media where
  type : Int
  value : String
deriving Repr, DecidableEq

/-- One entry of the wire `contactnote_set` list: Go struct `note`
with tags `json:"type"` and `json:"contents"`. -/
structure note where
  type : Int
  contents : String
deriving Repr, DecidableEq

/-- The private wire struct `contact` of the source: the encoder's output
shape. `Group` models Go's `[]map[string]int` where every map the code ever
builds has a single key. -/
structure contact where
  ID : String
  Name : String
  Group : List (String × Int)
  Address : String
  City : String
  State : String
  Zip : String
  Notes : List note
  Media : List media
deriving Repr, DecidableEq

/-- Render `contactgroup_set` (a list of one-key maps) as Go does. -/
def renderGroups (g : List (String × Int)) : String :=
  "[" ++ String.intercalate (",") (g.map (fun kv =>
    "\x7b" ++ renderString kv.1 ++ ":" ++ toString kv.2 ++ "\x7d")) ++ "]"

/-- Render one `media` entry: fields in Go struct order `type`, `value`. -/
def renderMedia (m : media) : String :=
  "\x7b\"type\":" ++ toString m.type ++ ",\"value\":" ++ renderString m.value ++ "\x7d"

/-- Render `mediainfo_set`. -/
def renderMedias (ms : List media) : String :=
  "[" ++ String.intercalate (",") (ms.map renderMedia) ++ "]"

/-- Render one `note` entry: fields in Go struct order `type`, `contents`. -/
def renderNote (n : note) : String :=
  "\x7b\"type\":" ++ toString n.type ++ ",\"contents\":" ++ renderString n.contents ++ "\x7d"

/-- Render `contactnote_set`. -/
def renderNotes (ns : List note) : String :=
  "[" ++ String.intercalate (",") (ns.map renderNote) ++ "]"

/-- An `omitempty` string field: emitted only when the value is non-empty,
exactly Go's `omitempty` rule for strings. -/
def optStrField (key : String) (v : String) : List (String × String) :=
  if v = "" then [] else [(key, renderString v)]

/-- The (key, rendered value) pairs `encoding/json` emits for a wire
`contact` value, in Go struct-field order. `api_contact_id`, `full_name`
and `contactgroup_set` carry no `omitempty`; `address`, `city`, `state`,
`zip_code`, `contactnote_set` and `mediainfo_set` do, so they are dropped
when empty (Go omits nil and empty slices alike). -/
def wireFields (w : contact) : List (String × String) :=
  [("api_contact_id", renderString w.ID),
   ("full_name", renderString w.Name),
   ("contactgroup_set", renderGroups w.Group)]
  ++ optStrField ("address") w.Address
  ++ optStrField ("city") w.City
  ++ optStrField ("state") w.State
  ++ optStrField ("zip_code") w.Zip
  ++ (if w.Notes = [] then [] else [("contactnote_set", renderNotes w.Notes)])
  ++ (if w.Media = [] then [] else [("mediainfo_set", renderMedias w.Media)])

/-- `json.Marshal` of a wire `contact` value. -/
def renderContact (w : contact) : String :=
  "\x7b" ++ String.intercalate (",")
    ((wireFields w).map (fun kv => "\"" ++ kv.1 ++ "\":" ++ kv.2)) ++ "\x7d"

/-- Source `cleanPhone` helper: remove all occurrences of one character,
Go's `strings.Replace(ph, c, "", -1)` for the one-character strings used. -/
def removeChar (c : Char) (s : String) : String :=
  ⟨s.data.filter (fun x => x ≠ c)⟩

/-- Source function `cleanPhone`: strips `(`, `)`, `-` and space, in the
source's order of the four `strings.Replace` calls. -/
def cleanPhone (ph : String) : String :=
  removeChar (' ') (removeChar ('-') (removeChar (')') (removeChar ('(') ph)))

/-- The public `Contact` struct: caller-supplied input. `GroupID` is a Go
`int`, modelled as `Int`. -/
structure Contact where
  ID : String
  GroupID : Int
  Name : String := ""
  Address : String := ""
  City : String := ""
  State : String := ""
  Zip : String := ""
  Email : String := ""
  MobilePhone : String := ""
  WorkPhone : String := ""
  HomePhone : String := ""
  Notes : List String := []
deriving Repr, DecidableEq

/-- The `mediainfo_set` the encoder appends: work(1), mobile(2), home(3),
email(4), each only when its source field is non-empty, phones passed
through `cleanPhone`, the email verbatim — the four `if` blocks of
`Contact.MarshalJSON` in source order. -/
def mediaOf (c : Contact) : List media :=
  (if c.WorkPhone ≠ "" then [⟨1, cleanPhone c.WorkPhone⟩] else [])
  ++ (if c.MobilePhone ≠ "" then [⟨2, cleanPhone c.MobilePhone⟩] else [])
  ++ (if c.HomePhone ≠ "" then [⟨3, cleanPhone c.HomePhone⟩] else [])
  ++ (if c.Email ≠ "" then [⟨4, c.Email⟩] else [])

/-- The body of source `Contact.MarshalJSON` up to the final
`json.Marshal(cc)`: the required-field checks and the construction of the
wire struct `cc`. -/
def Contact.marshal (c : Contact) : Except String contact :=
  if c.ID = "" then .error ("missing required field ID")
  else if c.GroupID = 0 then .error ("missing required field GroupID")
  else .ok
    { ID := c.ID
      Name := c.Name
      Group := [("group_id", c.GroupID)]
      Address := c.Address
      City := c.City
      State := c.State
      Zip := c.Zip
      Notes := c.Notes.map (fun nt => ⟨1, nt⟩)
      Media := mediaOf c }

/-- Source `Contact.MarshalJSON`: the checks and construction of
`Contact.marshal` followed by `json.Marshal` of the wire struct. -/
def Contact.MarshalJSON (c : Contact) : Except String String :=
  (c.marshal).map renderContact

/-- `json.Marshal` applied to a `[]Contact` value: each element's
`MarshalJSON` in order, results joined into a JSON array; the first
element error aborts, wrapped the way `encoding/json` wraps a
`MarshalJSON` error for this type. -/
def marshalContacts (cs : List Contact) : Except String String :=
  match cs.mapM Contact.MarshalJSON with
  | .error e => .error ("json: error calling MarshalJSON for type mojo.Contact: " ++ e)
  | .ok parts => .ok ("[" ++ String.intercalate (",") parts ++ "]")

/-!
## Response classification and transport
-/

/-- The exact locked-request sentence tested by `isLockedError`. -/
def lockedMsg : String :=
  "Previous request was not finished or was interrupted."

/-- The Go error values the client can return. `errorf` stands for a plain
`fmt.Errorf` error (source returns those for the locked case, the decode
case and unexpected statuses); the other constructors are the typed errors
`*ErrDuplicate`, `*ErrInvalid`, `*ErrForbidden`. -/
inductive GoError where
  | errDuplicate (ids : List String)
  | errInvalid (msg : String)
  | errForbidden (msg : String)
  | errorf (msg : String)
deriving Repr, DecidableEq

/-- Source struct `mojoResponse` parsed from a 200 reply to `AddContact`:
tags `json:"errors"` and `json:"duplicated_api_contact_id"`. -/
structure mojoResponse where
  Errors : List String
  DuplicatedAPIContactID : List String
deriving Repr, DecidableEq

/-- Source `mojoResponse.isError`: `len(resp.Errors) >= 1`. -/
def mojoResponse.isError (resp : mojoResponse) : Bool :=
  resp.Errors.length ≥ 1

/-- Source `mojoResponse.isLockedError`: exactly one error equal to the
locked-request sentence. -/
def mojoResponse.isLockedError (resp : mojoResponse) : Bool :=
  resp.Errors.length = 1 && resp.Errors.headI = lockedMsg

/-- Source `mojoResponse.isDuplicate`. -/
def mojoResponse.isDuplicate (resp : mojoResponse) : Bool :=
  resp.isError && resp.DuplicatedAPIContactID.length > 0

/-- Source `mojoResponse.errorMsg`: `strings.Join(resp.Errors, " ")`. -/
def mojoResponse.errorMsg (resp : mojoResponse) : String :=
  String.intercalate (" ") resp.Errors

/-- Source `mojoResponse.duplicatedIDs`. -/
def mojoResponse.duplicatedIDs (resp : mojoResponse) : List String :=
  if !resp.isDuplicate then [] else resp.DuplicatedAPIContactID

/-- The ordered classification chain at the end of source `AddContact`,
applied to a successfully parsed `mojoResponse`: locked, then duplicate,
then invalid, else success (`nil` error, modelled as `none`). -/
def classify (data : mojoResponse) : Option GoError :=
  if data.isLockedError then some (.errorf ("mojo: " ++ data.errorMsg))
  else if data.isDuplicate then some (.errDuplicate data.duplicatedIDs)
  else if data.isError then some (.errInvalid data.errorMsg)
  else none

/-- Source `newForbidden`. `parsedDetail` models `json.Unmarshal(body, &data)`
into the anonymous `{Detail string}` struct: `none` when the body is not
valid JSON, `some d` when it parses with `detail` field `d` (the zero value
`""` when the field is absent or empty). The source falls back to the raw
body when the parse errors or `Detail` is empty. -/
def newForbidden (parsedDetail : Option String) (body : String) : GoError :=
  match parsedDetail with
  | none => .errForbidden body
  | some d => if d = "" then .errForbidden body else .errForbidden d

/-- Source `Mojo` client configuration (the `HTTP` field is the transport
collaborator, out of the embedded core). -/
structure Mojo where
  URL : String
  Token : String
deriving Repr, DecidableEq

/-- Source `prefixHTTP`. -/
def prefixHTTP (domain : String) : String :=
  if domain.startsWith ("http://") || domain.startsWith ("https://") then domain
  else "https://" ++ domain

/-- The HTTP status and raw body the transport hands back; what
`mj.HTTP.Do` plus `ioutil.ReadAll` produce in the source. -/
structure HTTPResponse where
  status : Nat
  body : String
deriving Repr, DecidableEq

/-- Source `Mojo.post` after the network exchange: the status-code dispatch
on the response. `403` builds the forbidden error (passing the body's
`detail`-parse outcome through to `newForbidden`), `400` a validation
error with the request context, any other non-200 a generic status error;
`200` yields the raw body for classification. Network-level failures are
outside the embedding (the source wraps and returns them before this
dispatch). -/
def Mojo.post (url : String) (reqbody : String) (res : HTTPResponse)
    (parsedDetail : Option String) : Except GoError String :=
  if res.status = 403 then .error (newForbidden parsedDetail res.body)
  else if res.status = 400 then
    .error (.errInvalid ("POST " ++ url ++ " " ++ reqbody ++ " " ++ toString res.status
      ++ " validation error " ++ res.body))
  else if res.status ≠ 200 then
    .error (.errorf ("mojo: POST " ++ url ++ " " ++ reqbody ++ " status "
      ++ toString res.status ++ " with body " ++ res.body))
  else .ok res.body

/-- Source `Mojo.AddContact`: marshal the contacts (an `ErrInvalid` on
encode failure), post to the bulk-create endpoint, then decode the body as
`mojoResponse` and run the classification chain. `parsedResp` models
`json.Unmarshal(resbody, &data)`: `.error e` when the body is not valid
JSON (with `e` the parser's message), `.ok data` otherwise. -/
def Mojo.AddContact (mj : Mojo) (contacts : List Contact) (res : HTTPResponse)
    (parsedDetail : Option String) (parsedResp : Except String mojoResponse) :
    Option GoError :=
  match marshalContacts contacts with
  | .error e => some (.errInvalid e)
  | .ok reqbody =>
    let url := prefixHTTP mj.URL ++ "/api/contacts/bulk_create/"
    match Mojo.post url reqbody res parsedDetail with
    | .error e => some e
    | .ok resbody =>
      match parsedResp with
      | .error e => some (.errorf ("mojo: POST " ++ url ++ " " ++ reqbody
          ++ " decoding " ++ resbody ++ " (" ++ e ++ ")"))
      | .ok data => classify data

/-- Source struct `nonFieldErr` parsed from a 200 reply to `AddNote`:
tag `json:"non_field_errors"`. -/
structure nonFieldErr where
  Errors : List String
deriving Repr, DecidableEq

/-- Source `nonFieldErr.hasErr`. -/
def nonFieldErr.hasErr (err : nonFieldErr) : Bool :=
  err.Errors.length > 0

/-- Source `nonFieldErr.all`: `strings.Join(err.Errors, ", ")`. -/
def nonFieldErr.all (err : nonFieldErr) : String :=
  String.intercalate (", ") err.Errors

/-- The request body source `AddNote` marshals: a Go map with keys
`api_contact_id`, `contents`, `type` — `encoding/json` emits map keys
sorted, hence this fixed order. -/
def noteReqBody (contactID : String) (contents : String) : String :=
  "\x7b\"api_contact_id\":" ++ renderString contactID
    ++ ",\"contents\":" ++ renderString contents ++ ",\"type\":1\x7d"

/-- Source `Mojo.AddNote`: marshal the note request (cannot fail for the
map of strings and an int), post to the notes endpoint, decode the body as
`nonFieldErr` (`parsedNF` models that `json.Unmarshal`), and fail with
`ErrInvalid` exactly when the joined messages are non-empty. The decode
error message interpolates `reqbody` twice, as the source does. -/
def Mojo.AddNote (mj : Mojo) (contactID : String) (noteBody : String)
    (res : HTTPResponse) (parsedDetail : Option String)
    (parsedNF : Except String nonFieldErr) : Option GoError :=
  let reqbody := noteReqBody contactID noteBody
  let url := prefixHTTP mj.URL ++ "/api/notes/"
  match Mojo.post url reqbody res parsedDetail with
  | .error e => some e
  | .ok _resbody =>
    match parsedNF with
    | .error e => some (.errorf ("mojo: POST " ++ url ++ " " ++ reqbody
        ++ " decoding " ++ reqbody ++ " (" ++ e ++ ")"))
    | .ok nfErr =>
      if nfErr.all ≠ "" then
        some (.errInvalid ("POST " ++ url ++ " " ++ reqbody
          ++ " validation error: " ++ nfErr.all))
      else none

/-- Substring test over character lists: some suffix starts with `pat`. -/
def hasSubAux (pat : List Char) : List Char → Bool
  | [] => decide (pat = [])
  | c :: rest => pat.isPrefixOf (c :: rest) || hasSubAux pat rest

/-- Substring test on strings, used to state message-content properties. -/
def hasSub (s pat : String) : Bool :=
  hasSubAux pat.data s.data

/-!
## Shared lemmas
-/

lemma intercalate_singleton (sep a : String) :
    String.intercalate sep [a] = a := by
  simp [String.intercalate, String.intercalate.go]

lemma isLockedError_iff (r : mojoResponse) :
    r.isLockedError = true ↔ r.Errors = [lockedMsg] := by
  obtain ⟨es, ds⟩ := r
  cases es with
  | nil => simp [mojoResponse.isLockedError]
  | cons a t =>
    cases t with
    | nil => simp [mojoResponse.isLockedError, List.headI, eq_comm]
    | cons b u => simp [mojoResponse.isLockedError]

/-- A decode-failure message of `AddContact` can never be the locked-request
error message, whatever the request context is. -/
lemma post_decoding_ne_locked (t : String) :
    "mojo: POST " ++ t ≠ "mojo: " ++ lockedMsg := by
  intro h
  have hd : ("mojo: POST " ++ t).data = ("mojo: " ++ lockedMsg).data := by rw [h]
  rw [String.data_append, String.data_append] at hd
  have h8 := congrArg (List.take 8) hd
  rw [List.take_append_of_le_length (by decide),
      List.take_append_eq_append_take] at h8
  exact absurd h8 (by decide)

/-- The combined character filter that the four `strings.Replace` calls of
`cleanPhone` amount to. -/
lemma filter_four (l : List Char) :
    ((((l.filter (fun x => x ≠ '(')).filter (fun x => x ≠ ')')).filter
        (fun x => x ≠ '-')).filter (fun x => x ≠ ' '))
      = l.filter (fun ch => !(ch == '(' || ch == ')' || ch == '-' || ch == ' ')) := by
  induction l with
  | nil => rfl
  | cons a t ih =>
    by_cases h1 : a = '(' <;> by_cases h2 : a = ')' <;>
      by_cases h3 : a = '-' <;> by_cases h4 : a = ' ' <;>
      simp_all [List.filter_cons]

lemma cleanPhone_eq_filter (s : String) :
    cleanPhone s
      = ⟨s.data.filter (fun ch => !(ch == '(' || ch == ')' || ch == '-' || ch == ' '))⟩ :=
  congrArg String.mk (filter_four s.data)

lemma cleanPhone_idem (s : String) :
    cleanPhone (cleanPhone s) = cleanPhone s := by
  rw [cleanPhone_eq_filter s, cleanPhone_eq_filter]
  congr 1
  rw [List.filter_eq_self]
  intro a ha
  exact (List.mem_filter.mp ha).2

/-- Inversion of a successful `Contact.marshal`: both required fields were
set and the wire struct is the source's construction. -/
lemma marshal_ok_elim (c : Contact) (w : contact) (h : Contact.marshal c = .ok w) :
    c.ID ≠ "" ∧ c.GroupID ≠ 0 ∧
    w = { ID := c.ID, Name := c.Name, Group := [("group_id", c.GroupID)],
          Address := c.Address, City := c.City, State := c.State, Zip := c.Zip,
          Notes := c.Notes.map (fun nt => ⟨1, nt⟩), Media := mediaOf c } := by
  by_cases h1 : c.ID = ""
  · simp [Contact.marshal, h1] at h
  by_cases h2 : c.GroupID = 0
  · simp [Contact.marshal, h1, h2] at h
  refine ⟨h1, h2, ?_⟩
  simpa [Contact.marshal, h1, h2] using h.symm

/-!
## Claims
-/

set_option maxRecDepth 20000 in
/-- C3: encoding the contact with ID `654A4BFB-41B6-4058-B91E-879ECE2C5A0A`,
GroupID 2, Name `Jason Polakow`, WorkPhone `1238889999`, MobilePhone
`123-331-1245`, HomePhone `(891) 234-1213`, Email `jason@jp-australia.com`
produces exactly the wire JSON object with `api_contact_id`, `full_name`,
`contactgroup_set` `[\x7b"group_id":2\x7d]` and the four cleaned media
entries, in that order. -/
theorem C3_exact_wire_json :
    Contact.MarshalJSON
      { ID := "654A4BFB-41B6-4058-B91E-879ECE2C5A0A", GroupID := 2,
        Name := "Jason Polakow", Email := "jason@jp-australia.com",
        MobilePhone := "123-331-1245", WorkPhone := "1238889999",
        HomePhone := "(891) 234-1213" }
      = .ok ("\x7b\"api_contact_id\":\"654A4BFB-41B6-4058-B91E-879ECE2C5A0A\","
          ++ "\"full_name\":\"Jason Polakow\","
          ++ "\"contactgroup_set\":[\x7b\"group_id\":2\x7d],"
          ++ "\"mediainfo_set\":[\x7b\"type\":1,\"value\":\"1238889999\"\x7d,"
          ++ "\x7b\"type\":2,\"value\":\"1233311245\"\x7d,"
          ++ "\x7b\"type\":3,\"value\":\"8912341213\"\x7d,"
          ++ "\x7b\"type\":4,\"value\":\"jason@jp-australia.com\"\x7d]\x7d") := by
  rfl

/-- C5: `cleanPhone` removes every occurrence of `(`, `)`, `-` and space,
in any position and count, and leaves all other characters unchanged (it
equals the filter dropping exactly those four characters); hence it is
idempotent. It is applied to the work, mobile and home phones before they
receive their media types, while the email passes through unmodified. -/
theorem C5_cleanPhone_spec (s : String) (c : Contact) (w : contact)
    (h : Contact.marshal c = .ok w) :
    cleanPhone s
        = ⟨s.data.filter (fun ch => !(ch == '(' || ch == ')' || ch == '-' || ch == ' '))⟩
      ∧ cleanPhone (cleanPhone s) = cleanPhone s
      ∧ (c.WorkPhone ≠ "" → media.mk 1 (cleanPhone c.WorkPhone) ∈ w.Media)
      ∧ (c.MobilePhone ≠ "" → media.mk 2 (cleanPhone c.MobilePhone) ∈ w.Media)
      ∧ (c.HomePhone ≠ "" → media.mk 3 (cleanPhone c.HomePhone) ∈ w.Media)
      ∧ (c.Email ≠ "" → media.mk 4 c.Email ∈ w.Media) := by
  obtain ⟨-, -, hw⟩ := marshal_ok_elim c w h
  subst hw
  refine ⟨cleanPhone_eq_filter s, cleanPhone_idem s, ?_, ?_, ?_, ?_⟩ <;>
    intro hne <;> simp [mediaOf, hne]

/-- Closed instance of C5: the scenario phones of the test suite, with the
marshal hypothesis discharged on a concrete contact. -/
theorem C5_cleanPhone_spec_witness :
    cleanPhone (cleanPhone "(891) 234-1213") = cleanPhone "(891) 234-1213"
      ∧ media.mk 3 (cleanPhone "(891) 234-1213")
          ∈ (mediaOf { ID := "X", GroupID := 1, HomePhone := "(891) 234-1213" }) := by
  have h := C5_cleanPhone_spec "(891) 234-1213"
    { ID := "X", GroupID := 1, HomePhone := "(891) 234-1213" }
    { ID := "X", Name := "", Group := [("group_id", 1)], Address := "",
      City := "", State := "", Zip := "", Notes := [],
      Media := [⟨3, "8912341213"⟩] } (by rfl)
  exact ⟨h.2.1, h.2.2.2.2.1 (by decide)⟩

/-- C1: the 200-status classifier yields exactly one outcome, tested in
precedence order — Locked when `errors` is exactly the locked sentence
(even with populated duplicates), else Duplicate when `errors` and
`duplicated_api_contact_id` are both non-empty (carrying the ids in order),
else Invalid when `errors` is non-empty, else Success. -/
theorem C1_classifier_precedence (r : mojoResponse) :
    (r.Errors = [lockedMsg] →
      classify r = some (.errorf ("mojo: " ++ lockedMsg)))
  ∧ (r.Errors ≠ [] → r.Errors ≠ [lockedMsg] → r.DuplicatedAPIContactID ≠ [] →
      classify r = some (.errDuplicate r.DuplicatedAPIContactID))
  ∧ (r.Errors ≠ [] → r.Errors ≠ [lockedMsg] → r.DuplicatedAPIContactID = [] →
      classify r = some (.errInvalid (String.intercalate (" ") r.Errors)))
  ∧ (r.Errors = [] → classify r = none) := by
  refine ⟨?_, ?_, ?_, ?_⟩
  · intro h
    have hl : r.isLockedError = true := (isLockedError_iff r).mpr h
    rw [classify, if_pos hl, mojoResponse.errorMsg, h, intercalate_singleton]
  · intro h1 h2 h3
    have hl : r.isLockedError = false :=
      Bool.eq_false_iff.mpr (fun hh => h2 ((isLockedError_iff r).mp hh))
    have he : r.isError = true := by
      simp [mojoResponse.isError, Nat.one_le_iff_ne_zero, List.length_eq_zero, h1]
    have hd : r.isDuplicate = true := by
      simp [mojoResponse.isDuplicate, he, List.length_pos, h3]
    simp [classify, hl, hd, mojoResponse.duplicatedIDs]
  · intro h1 h2 h3
    have hl : r.isLockedError = false :=
      Bool.eq_false_iff.mpr (fun hh => h2 ((isLockedError_iff r).mp hh))
    have he : r.isError = true := by
      simp [mojoResponse.isError, Nat.one_le_iff_ne_zero, List.length_eq_zero, h1]
    have hd : r.isDuplicate = false := by
      simp [mojoResponse.isDuplicate, h3]
    simp [classify, hl, hd, he, mojoResponse.errorMsg]
  · intro h
    simp [classify, mojoResponse.isLockedError, mojoResponse.isDuplicate,
      mojoResponse.isError, h]

/-- Closed instances of C1: a body with both the locked sentence and a
populated duplicate list is Locked; a non-locked error body with populated
duplicates is Duplicate; an error body alone is Invalid; no errors is
success. -/
theorem C1_classifier_precedence_witness :
    classify ⟨[lockedMsg], ["a"]⟩ = some (.errorf ("mojo: " ++ lockedMsg))
  ∧ classify ⟨["boom"], ["a", "b"]⟩ = some (.errDuplicate ["a", "b"])
  ∧ classify ⟨["boom"], []⟩ = some (.errInvalid (String.intercalate (" ") ["boom"]))
  ∧ classify ⟨[], ["z"]⟩ = none :=
  ⟨(C1_classifier_precedence ⟨[lockedMsg], ["a"]⟩).1 rfl,
   (C1_classifier_precedence ⟨["boom"], ["a", "b"]⟩).2.1 (by decide) (by decide) (by decide),
   (C1_classifier_precedence ⟨["boom"], []⟩).2.2.1 (by decide) (by decide) rfl,
   (C1_classifier_precedence ⟨[], ["z"]⟩).2.2.2 rfl⟩

/-- C4: an empty `ID` fails encoding with the missing-ID message; a zero
`GroupID` (with `ID` set) fails with the missing-GroupID message; the `ID`
check comes first; and through `AddContact` these surface as
`ErrInvalid`-class encode failures, whatever the transport response is. -/
theorem C4_required_field_checks (c : Contact) (mj : Mojo) (res : HTTPResponse)
    (pd : Option String) (pr : Except String mojoResponse) :
    (c.ID = "" → Contact.MarshalJSON c = .error ("missing required field ID"))
  ∧ (c.ID ≠ "" → c.GroupID = 0 →
      Contact.MarshalJSON c = .error ("missing required field GroupID"))
  ∧ (c.ID = "" → Mojo.AddContact mj [c] res pd pr
      = some (.errInvalid
          ("json: error calling MarshalJSON for type mojo.Contact: missing required field ID")))
  ∧ (c.ID ≠ "" → c.GroupID = 0 → Mojo.AddContact mj [c] res pd pr
      = some (.errInvalid
          ("json: error calling MarshalJSON for type mojo.Contact: missing required field GroupID"))) := by
  refine ⟨?_, ?_, ?_, ?_⟩
  · intro h
    simp [Contact.MarshalJSON, Contact.marshal, Except.map, h]
  · intro h1 h2
    simp [Contact.MarshalJSON, Contact.marshal, Except.map, h1, h2]
  · intro h
    simp [Mojo.AddContact, marshalContacts, List.mapM, List.mapM.loop,
      Contact.MarshalJSON, Contact.marshal, Except.map, h]
  · intro h1 h2
    simp [Mojo.AddContact, marshalContacts, List.mapM, List.mapM.loop,
      Contact.MarshalJSON, Contact.marshal, Except.map, h1, h2]

/-- Closed instance of C4: a contact missing both fields fails with the
missing-ID message, end to end, on an arbitrary response. -/
theorem C4_required_field_checks_witness :
    Contact.MarshalJSON { ID := "", GroupID := 0 }
      = .error ("missing required field ID")
  ∧ Mojo.AddContact ⟨"x.com", "t"⟩ [{ ID := "", GroupID := 0 }] ⟨200, "ok"⟩ none
        (.ok ⟨[], []⟩)
      = some (.errInvalid
          ("json: error calling MarshalJSON for type mojo.Contact: missing required field ID"))
  ∧ Contact.MarshalJSON { ID := "X", GroupID := 0 }
      = .error ("missing required field GroupID") :=
  ⟨(C4_required_field_checks { ID := "", GroupID := 0 } ⟨"x.com", "t"⟩ ⟨200, "ok"⟩
      none (.ok ⟨[], []⟩)).1 rfl,
   (C4_required_field_checks { ID := "", GroupID := 0 } ⟨"x.com", "t"⟩ ⟨200, "ok"⟩
      none (.ok ⟨[], []⟩)).2.2.1 rfl,
   (C4_required_field_checks { ID := "X", GroupID := 0 } ⟨"x.com", "t"⟩ ⟨200, "ok"⟩
      none (.ok ⟨[], []⟩)).2.1 (by decide) rfl⟩

/-- C7: a 403-status response always yields an `ErrForbidden` outcome; its
message is the body's `detail` field when the body parses as JSON with a
non-empty `detail`, and the raw body verbatim otherwise (non-JSON body, or
JSON of another schema leaving `detail` empty). -/
theorem C7_forbidden_dispatch (url reqbody : String) (res : HTTPResponse)
    (pd : Option String) (h : res.status = 403) :
    (∀ d, pd = some d → d ≠ "" →
      Mojo.post url reqbody res pd = .error (.errForbidden d))
  ∧ (pd = some "" → Mojo.post url reqbody res pd = .error (.errForbidden res.body))
  ∧ (pd = none → Mojo.post url reqbody res pd = .error (.errForbidden res.body)) := by
  refine ⟨?_, ?_, ?_⟩
  · intro d hpd hd
    simp [Mojo.post, h, newForbidden, hpd, hd]
  · intro hpd
    simp [Mojo.post, h, newForbidden, hpd]
  · intro hpd
    simp [Mojo.post, h, newForbidden, hpd]

/-- Closed instances of C7: the spec's two 403 scenarios. -/
theorem C7_forbidden_dispatch_witness :
    Mojo.post "u" "b" ⟨403, "\x7b\"detail\":\"Invalid access_token\"\x7d"⟩
        (some "Invalid access_token")
      = .error (.errForbidden "Invalid access_token")
  ∧ Mojo.post "u" "b" ⟨403, "get out of here"⟩ none
      = .error (.errForbidden "get out of here") :=
  ⟨(C7_forbidden_dispatch "u" "b" ⟨403, "\x7b\"detail\":\"Invalid access_token\"\x7d"⟩
      (some "Invalid access_token") rfl).1 "Invalid access_token" rfl (by decide),
   (C7_forbidden_dispatch "u" "b" ⟨403, "get out of here"⟩ none rfl).2.2 rfl⟩

lemma mediaOf_eq_nil_iff (c : Contact) :
    mediaOf c = []
      ↔ (c.WorkPhone = "" ∧ c.MobilePhone = "" ∧ c.HomePhone = "" ∧ c.Email = "") := by
  by_cases h1 : c.WorkPhone = "" <;> by_cases h2 : c.MobilePhone = "" <;>
    by_cases h3 : c.HomePhone = "" <;> by_cases h4 : c.Email = "" <;>
    simp [mediaOf, h1, h2, h3, h4]

/-- C6: whenever encoding succeeds, the media entries are strictly ordered
work(1), mobile(2), home(3), email(4); each entry is present exactly when
its source field is set, and entries for unset fields are absent (no entry
of that type exists), the rest keeping their relative order. -/
theorem C6_media_order (c : Contact) (w : contact) (h : Contact.marshal c = .ok w) :
    w.Media.Pairwise (fun a b => a.type < b.type)
  ∧ (media.mk 1 (cleanPhone c.WorkPhone) ∈ w.Media ↔ c.WorkPhone ≠ "")
  ∧ (media.mk 2 (cleanPhone c.MobilePhone) ∈ w.Media ↔ c.MobilePhone ≠ "")
  ∧ (media.mk 3 (cleanPhone c.HomePhone) ∈ w.Media ↔ c.HomePhone ≠ "")
  ∧ (media.mk 4 c.Email ∈ w.Media ↔ c.Email ≠ "")
  ∧ (c.WorkPhone = "" → ∀ m ∈ w.Media, m.type ≠ 1)
  ∧ (c.MobilePhone = "" → ∀ m ∈ w.Media, m.type ≠ 2)
  ∧ (c.HomePhone = "" → ∀ m ∈ w.Media, m.type ≠ 3)
  ∧ (c.Email = "" → ∀ m ∈ w.Media, m.type ≠ 4) := by
  obtain ⟨-, -, rfl⟩ := marshal_ok_elim c w h
  by_cases h1 : c.WorkPhone = "" <;> by_cases h2 : c.MobilePhone = "" <;>
    by_cases h3 : c.HomePhone = "" <;> by_cases h4 : c.Email = "" <;>
    simp [mediaOf, h1, h2, h3, h4, media.mk.injEq]

/-- Closed instance of C6: only mobile and email set gives the two entries
in order 2 then 4. -/
theorem C6_media_order_witness :
    (mediaOf { ID := "X", GroupID := 1, MobilePhone := "123-331-1245", Email := "a@b.c" }).Pairwise
        (fun a b => a.type < b.type)
  ∧ (media.mk 4 "a@b.c"
      ∈ mediaOf { ID := "X", GroupID := 1, MobilePhone := "123-331-1245", Email := "a@b.c" }) := by
  have h := C6_media_order
    { ID := "X", GroupID := 1, MobilePhone := "123-331-1245", Email := "a@b.c" }
    { ID := "X", Name := "", Group := [("group_id", 1)], Address := "",
      City := "", State := "", Zip := "", Notes := [],
      Media := [⟨2, "1233311245"⟩, ⟨4, "a@b.c"⟩] } (by rfl)
  exact ⟨h.1, h.2.2.2.2.1.mpr (by decide)⟩

/-- C10: any non-zero `GroupID`, negative values included, passes the
encoder's check (only zero is rejected), and the wire output carries
`contactgroup_set` with the single entry `\x7b"group_id": value\x7d`. -/
theorem C10_nonzero_groupid (c : Contact) (h1 : c.ID ≠ "") (h2 : c.GroupID ≠ 0) :
    (Contact.marshal c).isOk = true
  ∧ ∀ w, Contact.marshal c = .ok w →
      w.Group = [("group_id", c.GroupID)]
      ∧ ("contactgroup_set", renderGroups [("group_id", c.GroupID)]) ∈ wireFields w := by
  constructor
  · simp [Contact.marshal, h1, h2, Except.isOk, Except.toBool]
  · intro w hw
    obtain ⟨-, -, rfl⟩ := marshal_ok_elim c w hw
    exact ⟨rfl, by simp [wireFields]⟩

/-- Closed instance of C10: `GroupID = -5` encodes, with the negative value
in `contactgroup_set`. -/
theorem C10_nonzero_groupid_witness :
    (Contact.marshal { ID := "X", GroupID := -5 }).isOk = true
  ∧ ("contactgroup_set", "[\x7b\"group_id\":-5\x7d]")
      ∈ wireFields { ID := "X", Name := "", Group := [("group_id", -5)],
                     Address := "", City := "", State := "", Zip := "",
                     Notes := [], Media := [] } := by
  have h := C10_nonzero_groupid { ID := "X", GroupID := -5 } (by decide) (by decide)
  exact ⟨h.1, (h.2 _ (by rfl)).2⟩

lemma mem_keys_opt (k key v : String) :
    k ∈ (optStrField key v).map Prod.fst ↔ (k = key ∧ v ≠ "") := by
  by_cases h : v = "" <;> simp [optStrField, h]

lemma mem_keys_condList (k key v : String) (P : Prop) [Decidable P] :
    k ∈ ((if P then ([] : List (String × String)) else [(key, v)]).map Prod.fst)
      ↔ (k = key ∧ ¬P) := by
  by_cases h : P <;> simp [h]

/-- C2 as stated is false on the code: a contact whose `Name` is empty
still encodes `full_name`, as the empty-string placeholder
`"full_name":""` — the output is not presence-iff-non-empty for every
field. -/
theorem C2_presence_counterexample :
    Contact.MarshalJSON { ID := "X", GroupID := 1 }
      = .ok ("\x7b\"api_contact_id\":\"X\",\"full_name\":\"\",\"contactgroup_set\":[\x7b\"group_id\":1\x7d]\x7d")
  ∧ hasSub ("\x7b\"api_contact_id\":\"X\",\"full_name\":\"\",\"contactgroup_set\":[\x7b\"group_id\":1\x7d]\x7d")
      ("\"full_name\":\"\"") = true := by
  exact ⟨rfl, rfl⟩

/-- C2 amended: presence-iff-non-empty holds for the six `omitempty` wire
fields (`address`, `city`, `state`, `zip_code`, `contactnote_set`,
`mediainfo_set`), while `api_contact_id`, `full_name` and
`contactgroup_set` are always present (so an empty `Name` yields an
empty-string `full_name`, not an omission). -/
theorem C2_field_presence (c : Contact) (w : contact) (h : Contact.marshal c = .ok w) :
    ("address" ∈ (wireFields w).map Prod.fst ↔ c.Address ≠ "")
  ∧ ("city" ∈ (wireFields w).map Prod.fst ↔ c.City ≠ "")
  ∧ ("state" ∈ (wireFields w).map Prod.fst ↔ c.State ≠ "")
  ∧ ("zip_code" ∈ (wireFields w).map Prod.fst ↔ c.Zip ≠ "")
  ∧ ("contactnote_set" ∈ (wireFields w).map Prod.fst ↔ c.Notes ≠ [])
  ∧ ("mediainfo_set" ∈ (wireFields w).map Prod.fst
      ↔ (c.WorkPhone ≠ "" ∨ c.MobilePhone ≠ "" ∨ c.HomePhone ≠ "" ∨ c.Email ≠ ""))
  ∧ "api_contact_id" ∈ (wireFields w).map Prod.fst
  ∧ "full_name" ∈ (wireFields w).map Prod.fst
  ∧ "contactgroup_set" ∈ (wireFields w).map Prod.fst := by
  obtain ⟨-, -, rfl⟩ := marshal_ok_elim c w h
  simp only [wireFields, List.map_append, List.mem_append, mem_keys_opt,
    mem_keys_condList, List.map_cons, List.map_nil, List.mem_cons,
    List.mem_singleton]
  refine ⟨?_, ?_, ?_, ?_, ?_, ?_, ?_, ?_, ?_⟩ <;>
    · simp [mediaOf_eq_nil_iff, List.map_eq_nil_iff]
      try tauto

/-- Closed instance of C2 amended: a contact with only City set among the
optional fields emits `city` and none of the other `omitempty` fields. -/
theorem C2_field_presence_witness :
    ("city" ∈ (wireFields { ID := "X", Name := "", Group := [("group_id", 1)],
                            Address := "", City := "Maui", State := "", Zip := "",
                            Notes := [], Media := [] }).map Prod.fst)
  ∧ ¬ ("address" ∈ (wireFields { ID := "X", Name := "", Group := [("group_id", 1)],
                                 Address := "", City := "Maui", State := "", Zip := "",
                                 Notes := [], Media := [] }).map Prod.fst) := by
  have h := C2_field_presence { ID := "X", GroupID := 1, City := "Maui" }
    { ID := "X", Name := "", Group := [("group_id", 1)],
      Address := "", City := "Maui", State := "", Zip := "",
      Notes := [], Media := [] } (by rfl)
  exact ⟨h.2.1.mpr (by decide), fun hc => (h.1.mp hc) rfl⟩

set_option maxRecDepth 20000 in
/-- C8 as stated is false on the code: for a 200-status body that is not
JSON, the failure message identifies the POST, the request body and the
word `decoding`, but does not contain the phrase `decoding response body`
the claim names. -/
theorem C8_decode_message_counterexample :
    Mojo.AddContact ⟨"x.com", "t"⟩ [{ ID := "X", GroupID := 1 }] ⟨200, "ops"⟩ none
        (.error "invalid character 'o' looking for beginning of value")
      = some (.errorf ("mojo: POST https://x.com/api/contacts/bulk_create/ "
          ++ "[\x7b\"api_contact_id\":\"X\",\"full_name\":\"\",\"contactgroup_set\":[\x7b\"group_id\":1\x7d]\x7d]"
          ++ " decoding ops (invalid character 'o' looking for beginning of value)"))
  ∧ hasSub ("mojo: POST https://x.com/api/contacts/bulk_create/ "
          ++ "[\x7b\"api_contact_id\":\"X\",\"full_name\":\"\",\"contactgroup_set\":[\x7b\"group_id\":1\x7d]\x7d]"
          ++ " decoding ops (invalid character 'o' looking for beginning of value)")
        ("decoding response body") = false := by
  exact ⟨rfl, by rfl⟩

/-- C8 amended: a 200-status body that fails to parse as JSON yields a
distinct decoding failure — a plain error carrying the request URL and
body, the word `decoding`, the response body and the underlying parse
error — and is classified as none of the four outcomes Locked, Duplicate,
Invalid or Success. -/
theorem C8_decode_failure (mj : Mojo) (cs : List Contact) (res : HTTPResponse)
    (pd : Option String) (e reqbody : String)
    (h200 : res.status = 200) (henc : marshalContacts cs = .ok reqbody) :
    Mojo.AddContact mj cs res pd (.error e)
        = some (.errorf ("mojo: POST " ++ (prefixHTTP mj.URL ++ "/api/contacts/bulk_create/")
            ++ " " ++ reqbody ++ " decoding " ++ res.body ++ " (" ++ e ++ ")"))
  ∧ (∀ ids, Mojo.AddContact mj cs res pd (.error e) ≠ some (.errDuplicate ids))
  ∧ (∀ m, Mojo.AddContact mj cs res pd (.error e) ≠ some (.errInvalid m))
  ∧ Mojo.AddContact mj cs res pd (.error e) ≠ none
  ∧ Mojo.AddContact mj cs res pd (.error e) ≠ some (.errorf ("mojo: " ++ lockedMsg)) := by
  have hmain : Mojo.AddContact mj cs res pd (.error e)
      = some (.errorf ("mojo: POST " ++ (prefixHTTP mj.URL ++ "/api/contacts/bulk_create/")
          ++ " " ++ reqbody ++ " decoding " ++ res.body ++ " (" ++ e ++ ")")) := by
    simp [Mojo.AddContact, henc, Mojo.post, h200]
  refine ⟨hmain, ?_, ?_, ?_, ?_⟩
  · intro ids; rw [hmain]; simp
  · intro m; rw [hmain]; simp
  · rw [hmain]; simp
  · rw [hmain]
    intro hc
    simp only [Option.some.injEq, GoError.errorf.injEq, String.append_assoc] at hc
    exact post_decoding_ne_locked _ hc

/-- Closed instance of C8 amended: the invalid-JSON scenario body `ops`. -/
theorem C8_decode_failure_witness :
    Mojo.AddContact ⟨"x.com", "t"⟩ [{ ID := "X", GroupID := 1 }] ⟨200, "ops"⟩ none
        (.error "invalid character 'o' looking for beginning of value")
      ≠ none :=
  (C8_decode_failure ⟨"x.com", "t"⟩ [{ ID := "X", GroupID := 1 }] ⟨200, "ops"⟩ none
    "invalid character 'o' looking for beginning of value"
    ("[\x7b\"api_contact_id\":\"X\",\"full_name\":\"\",\"contactgroup_set\":[\x7b\"group_id\":1\x7d]\x7d]")
    rfl (by rfl)).2.2.2.1

/-- C9 as stated is false on the code: a parsed `non_field_errors` list
holding one empty string is non-empty, yet `AddNote` succeeds (`nil`
error), because the source tests the joined message string, not the list. -/
theorem C9_nonempty_list_counterexample :
    Mojo.AddNote ⟨"x.com", "t"⟩ "id1" "hi"
        ⟨200, "\x7b\"non_field_errors\":[\"\"]\x7d"⟩ none (.ok ⟨[""]⟩) = none
  ∧ (⟨[""]⟩ : nonFieldErr).Errors ≠ [] := by
  exact ⟨rfl, by decide⟩

/-- C9 amended: `AddNote` submits `\x7bapi_contact_id, contents, type:1\x7d`
to the notes endpoint; on a 200 reply it fails with `ErrInvalid` — carrying
the joined messages plus the request URL and body — exactly when the
`", "`-join of `non_field_errors` is non-empty (in particular an empty or
absent list is success, but so is a list of empty strings joining to `""`);
a parse failure of the response body is an opaque decoding failure. -/
theorem C9_addnote_contract (mj : Mojo) (cid nt : String) (res : HTTPResponse)
    (pd : Option String) (nf : nonFieldErr) (e : String) (h200 : res.status = 200) :
    (nf.all ≠ "" → Mojo.AddNote mj cid nt res pd (.ok nf)
        = some (.errInvalid ("POST " ++ (prefixHTTP mj.URL ++ "/api/notes/") ++ " "
            ++ noteReqBody cid nt ++ " validation error: " ++ nf.all)))
  ∧ (nf.all = "" → Mojo.AddNote mj cid nt res pd (.ok nf) = none)
  ∧ (nf.Errors = [] → Mojo.AddNote mj cid nt res pd (.ok nf) = none)
  ∧ (Mojo.AddNote mj cid nt res pd (.error e)
        = some (.errorf ("mojo: POST " ++ (prefixHTTP mj.URL ++ "/api/notes/") ++ " "
            ++ noteReqBody cid nt ++ " decoding " ++ noteReqBody cid nt ++ " (" ++ e ++ ")"))) := by
  refine ⟨?_, ?_, ?_, ?_⟩
  · intro hne
    simp [Mojo.AddNote, Mojo.post, h200, hne]
  · intro heq
    simp [Mojo.AddNote, Mojo.post, h200, heq]
  · intro heq
    have : nf.all = "" := by
      simp [nonFieldErr.all, heq, String.intercalate]
    simp [Mojo.AddNote, Mojo.post, h200, this]
  · simp [Mojo.AddNote, Mojo.post, h200]

/-- Closed instance of C9 amended: the documented invalid-contact scenario. -/
theorem C9_addnote_contract_witness :
    Mojo.AddNote ⟨"x.com", "t"⟩ "id1" "hi"
        ⟨200, "\x7b\"non_field_errors\":[\"Invalid api_contact_id.\"]\x7d"⟩ none
        (.ok ⟨["Invalid api_contact_id."]⟩)
      = some (.errInvalid ("POST " ++ (prefixHTTP "x.com" ++ "/api/notes/") ++ " "
          ++ noteReqBody "id1" "hi" ++ " validation error: "
          ++ nonFieldErr.all ⟨["Invalid api_contact_id."]⟩)) :=
  (C9_addnote_contract ⟨"x.com", "t"⟩ "id1" "hi"
    ⟨200, "\x7b\"non_field_errors\":[\"Invalid api_contact_id.\"]\x7d"⟩ none
    ⟨["Invalid api_contact_id."]⟩ "e" rfl).1 (by decide)

end MojoGo
